import Mathlib

/-!
Verification of the liblava app orchestration, file utilities and pipeline model.

Shallow embedding of `liblava/app/app.cpp`, `liblava/file/file_utils.cpp` and
`liblava/block/pipeline.hpp`, with theorems checking the natural-language
specification against the code.
-/

namespace Lava

/-! ## Window-state persistence (`app.cpp`, `to_json` / `from_json` /
`load_window_state` / `save_window_file`)

`window::state` carries ten fields (ints and bools).  The persisted window
document (`window.json`) is a JSON object keyed by save-name; each entry is an
object that may carry any subset of the ten fields.  We model the document as
an association list from save-name to a partial entry record. -/

/-- `window::state`: the in-memory window state record. -/
structure WState where
  x : Int
  y : Int
  width : Int
  height : Int
  fullscreen : Bool
  floating : Bool
  resizable : Bool
  decorated : Bool
  maximized : Bool
  monitor : Int
deriving DecidableEq

/-- A JSON object entry for one save-name: each of the ten fields may be
present (`some`) or absent (`none`) in the document. -/
structure WEntry where
  x : Option Int
  y : Option Int
  width : Option Int
  height : Option Int
  fullscreen : Option Bool
  floating : Option Bool
  resizable : Option Bool
  decorated : Option Bool
  maximized : Option Bool
  monitor : Option Int
deriving DecidableEq

/-- `to_json(json& j, window::state const& w)` (app.cpp:19–21): writes all ten
fields. -/
def to_json (w : WState) : WEntry :=
  { x := some w.x, y := some w.y, width := some w.width, height := some w.height
    fullscreen := some w.fullscreen, floating := some w.floating
    resizable := some w.resizable, decorated := some w.decorated
    maximized := some w.maximized, monitor := some w.monitor }

/-- `from_json(json const& j, window::state& w)` (app.cpp:23–44): ten
independent `if (j.count(f)) w.f = j.at(f)` statements, each guarding a
distinct field; the net effect is this field-wise update. -/
def from_json (j : WEntry) (w : WState) : WState :=
  { x := j.x.getD w.x, y := j.y.getD w.y
    width := j.width.getD w.width, height := j.height.getD w.height
    fullscreen := j.fullscreen.getD w.fullscreen
    floating := j.floating.getD w.floating
    resizable := j.resizable.getD w.resizable
    decorated := j.decorated.getD w.decorated
    maximized := j.maximized.getD w.maximized
    monitor := j.monitor.getD w.monitor }

/-- The persisted window document: a JSON object keyed by save-name. -/
def Doc : Type := List (String × WEntry)

instance : DecidableEq Doc := by
  unfold Doc
  infer_instance

/-- `j.count(save_name)` / `j[save_name]` on the document: lookup by key. -/
def Doc.find (j : Doc) (k : String) : Option WEntry :=
  match j with
  | [] => none
  | (k0, e0) :: rest => if k0 = k then some e0 else Doc.find rest k

/-- Field-level merge: a field carried by the patch replaces the field of the
target, a field absent from the patch is kept. -/
def mergeField {α : Type} (old patch : Option α) : Option α :=
  match patch with
  | some v => some v
  | none => old

/-- RFC 7386 merge-patch at the level of one entry: every field carried by the
patch (all of whose values are non-null scalars here) replaces the field of
the target, every field absent from the patch is kept. -/
def WEntry.mergePatch (old patch : WEntry) : WEntry :=
  { x := mergeField old.x patch.x, y := mergeField old.y patch.y
    width := mergeField old.width patch.width
    height := mergeField old.height patch.height
    fullscreen := mergeField old.fullscreen patch.fullscreen
    floating := mergeField old.floating patch.floating
    resizable := mergeField old.resizable patch.resizable
    decorated := mergeField old.decorated patch.decorated
    maximized := mergeField old.maximized patch.maximized
    monitor := mergeField old.monitor patch.monitor }

/-- `j.merge_patch(d)` with `d = { k : e }`: merge the entry `e` into the
document under key `k`, leaving every other key untouched. -/
def Doc.mergePatchKey (j : Doc) (k : String) (e : WEntry) : Doc :=
  match j with
  | [] => [(k, e)]
  | (k0, e0) :: rest =>
      if k0 = k then (k0, WEntry.mergePatch e0 e) :: rest
      else (k0, e0) :: Doc.mergePatchKey rest k e

/-- `load_window_file(window::state& state, name save_name)` (app.cpp:46–60),
given the parsed document: fails when the save-name is absent, else converts
the entry (the nlohmann `get<window::state>` applies `from_json` to a
default-constructed state `w0`). -/
def load_window_file (w0 : WState) (j : Doc) (save_name : String) : Option WState :=
  match j.find save_name with
  | none => none
  | some e => some (from_json e w0)

/-- `load_window_state(name save_name)` (app.cpp:62–71): empty optional when
the window file is missing/unreadable (`file = none`) or the save-name is not
in the document. -/
def load_window_state (w0 : WState) (file : Option Doc) (save_name : String) :
    Option WState :=
  match file with
  | none => none
  | some j => load_window_file w0 j save_name

/-- The document computed by `save_window_file(window::ref window)`
(app.cpp:73–102): if the window file loads, merge-patch `{ index : state }`
into it, otherwise start a fresh document with the single entry. -/
def save_window_file (file : Option Doc) (index : String) (state : WState) : Doc :=
  match file with
  | some j => j.mergePatchKey index (to_json state)
  | none => [(index, to_json state)]

/-! ## Run-time/config record (`app::handle_config`, app.cpp:110–159)

`run_time` (paused, speed, use_fix_delta, fix_delta) and `config` (auto_save,
save_interval, auto_load, v_sync, physical_device) together with the GUI
active flag, flattened into one record; the `on_load` callback reads the
persisted config document into it. -/

/-- The in-memory run-time/config state touched by `config_callback.on_load`. -/
structure ConfigSt where
  paused : Bool
  speed : ℚ
  use_fix_delta : Bool
  fix_delta : Int
  auto_save : Bool
  save_interval : Int
  auto_load : Bool
  gui_active : Bool
  v_sync : Bool
  physical_device : Int
deriving DecidableEq

/-- A persisted config document: each of the ten fields may be present or
absent. -/
structure CEntry where
  paused : Option Bool
  speed : Option ℚ
  auto_save : Option Bool
  save_interval : Option Int
  auto_load : Option Bool
  fixed_delta : Option Bool
  delta : Option Int
  gui : Option Bool
  v_sync : Option Bool
  physical_device : Option Int
deriving DecidableEq

/-- `config_callback.on_load` (app.cpp:113–143): ten independent
`if (j.count(f)) target = j[f]` statements, each guarding a distinct field;
the net effect is this field-wise update. -/
def on_load (j : CEntry) (st : ConfigSt) : ConfigSt :=
  { paused := j.paused.getD st.paused
    speed := j.speed.getD st.speed
    auto_save := j.auto_save.getD st.auto_save
    save_interval := j.save_interval.getD st.save_interval
    auto_load := j.auto_load.getD st.auto_load
    use_fix_delta := j.fixed_delta.getD st.use_fix_delta
    fix_delta := j.delta.getD st.fix_delta
    gui_active := j.gui.getD st.gui_active
    v_sync := j.v_sync.getD st.v_sync
    physical_device := j.physical_device.getD st.physical_device }

/-- `config_callback.on_save` (app.cpp:145–156): writes all ten fields. -/
def on_save (st : ConfigSt) : CEntry :=
  { paused := some st.paused, speed := some st.speed
    auto_save := some st.auto_save, save_interval := some st.save_interval
    auto_load := some st.auto_load, fixed_delta := some st.use_fix_delta
    delta := some st.fix_delta, gui := some st.gui_active
    v_sync := some st.v_sync, physical_device := some st.physical_device }

/-- Modelled from the spec: `json_file::load` (the liblava config file class is
not under src/): reads the persisted config document when it is readable and
applies the registered `on_load` callback; an unreadable or missing file is
logged and no overrides are applied (prior/default values kept). -/
def config_file_load (doc : Option CEntry) (st : ConfigSt) : ConfigSt :=
  match doc with
  | none => st
  | some j => on_load j st

/-- The window file together with its writability, for the save path of
`save_window_file` (app.cpp:91–99): when the file cannot be opened for
writing the error is logged and the function returns without writing. The
`Bool` component records whether the write happened. -/
structure WindowFS where
  doc : Option Doc
  writable : Bool
deriving DecidableEq

/-- `save_window_file` including the file-write step (app.cpp:73–102). -/
def save_window_file_fs (fs : WindowFS) (index : String) (state : WState) :
    WindowFS × Bool :=
  let j := save_window_file fs.doc index state
  if fs.writable then ({ fs with doc := some j }, true) else (fs, false)

/-! ## The per-tick render step (`app::render`, app.cpp:460–478) -/

/-- Calls made by one `app::render` tick. -/
inductive RenderAction
  | sleepOneMs
  | beginFrame
  | process (frame_index : Nat)
  | endFrame
deriving DecidableEq

/-- External collaborators of `app::render`: `window.iconified()`,
`plotter.begin_frame()`, `block.process(i)`, `plotter.end_frame(...)`. -/
structure RenderEnv where
  iconified : Bool
  frame_index : Option Nat
  process_ok : Nat → Bool
  end_frame_ok : Bool

/-- `app::render` (app.cpp:460–478): the recorded calls, the bool result of
the run step, and the new `frame_counter`. -/
def render (env : RenderEnv) (frame_counter : Nat) :
    List RenderAction × Bool × Nat :=
  if env.iconified then ([RenderAction.sleepOneMs], true, frame_counter)
  else
    match env.frame_index with
    | none => ([RenderAction.beginFrame], true, frame_counter)
    | some i =>
        if env.process_ok i then
          ([RenderAction.beginFrame, RenderAction.process i,
              RenderAction.endFrame],
            env.end_frame_ok, frame_counter + 1)
        else
          ([RenderAction.beginFrame, RenderAction.process i], false,
            frame_counter + 1)

/-! ## `app::setup` (app.cpp:184–259) -/

/-- Events of `app::setup`, through target creation. -/
inductive SetupEvent
  | configLoad
  | cmdLineOverride
  | windowCreate
  | deviceCreate (physical_device : Int)
  | targetCreate (v_sync : Bool)
deriving DecidableEq

/-- External collaborators of `app::setup`; `have_device` models a device
injected before setup (`if (!device)` at app.cpp:208). -/
structure SetupEnv where
  frame_ready : Bool
  fs_init : Bool
  window_ok : Bool
  have_device : Bool
  device_ok : Bool
  target_ok : Bool
deriving DecidableEq

/-- `app::setup` (app.cpp:184–259) through `create_target`: `handle_config`
loads the config file, then the command line overrides `config.v_sync` and
`config.physical_device` (the argh `>>` operator leaves the variable untouched when the
flag is absent), then window, device and target are created from the
resulting config.  The steps after target creation (camera, gui, block, run
callbacks) do not touch the config and are not modelled. -/
def setup (env : SetupEnv) (persisted : Option CEntry) (cl_vs : Option Bool)
    (cl_pd : Option Int) (st0 : ConfigSt) :
    List SetupEvent × Bool × ConfigSt :=
  if !env.frame_ready then ([], false, st0)
  else if !env.fs_init then ([], false, st0)
  else
    let st1 := config_file_load persisted st0
    let st2 := { st1 with
                  v_sync := cl_vs.getD st1.v_sync
                  physical_device := cl_pd.getD st1.physical_device }
    let tr0 := [SetupEvent.configLoad, SetupEvent.cmdLineOverride]
    if !env.window_ok then (tr0 ++ [SetupEvent.windowCreate], false, st2)
    else if env.have_device then
      (tr0 ++ [SetupEvent.windowCreate, SetupEvent.targetCreate st2.v_sync],
        env.target_ok, st2)
    else if !env.device_ok then
      (tr0 ++ [SetupEvent.windowCreate,
          SetupEvent.deviceCreate st2.physical_device],
        false, st2)
    else
      (tr0 ++ [SetupEvent.windowCreate,
          SetupEvent.deviceCreate st2.physical_device,
          SetupEvent.targetCreate st2.v_sync],
        env.target_ok, st2)

/-! ## `app::handle_window` (app.cpp:386–431) and the target rebuild -/

/-- Calls made during a window-handling tick and the rebuild it drives. -/
inductive Action
  | waitIdle
  | onDestroy
  | destroyPlotter
  | destroyShading
  | destroyTarget
  | destroyGui
  | destroyFonts
  | saveWindowState
  | loadWindowState
  | switchMode
  | setWindowIcon
  | invertVsync
  | createTarget (v_sync : Bool)
  | createShading
  | createPlotter
  | assignInput
  | onCreate
  | guiSetup
  | createGui
  | registerGuiPipeline
  | uploadFonts
  | destroyBlock
  | createBlock
  | registerBlockCallbacks
  | updateCamera
  | handleResize
  | shutDown
deriving DecidableEq

/-- The request flags and config consulted by the window-handling tick. -/
structure WinState where
  close_request : Bool
  switch_mode_request : Bool
  reload_request : Bool
  resize_request : Bool
  toggle_v_sync : Bool
  v_sync : Bool
  save_window : Bool
deriving DecidableEq

/-- External collaborators of the window-handling tick: which optional
callbacks are installed and which external calls succeed. -/
structure WinEnv where
  has_on_destroy : Bool
  has_on_create : Bool
  switch_mode_ok : Bool
  target_ok : Bool
  shading_ok : Bool
  plotter_ok : Bool
  on_create_ok : Bool
  gui_create_ok : Bool
  upload_fonts_ok : Bool
  shut_down_result : Bool
  handle_resize_ok : Bool
deriving DecidableEq

/-- `app::destroy_target` (app.cpp:308–316): optional `on_destroy`, then
plotter, shading and target teardown. -/
def destroy_target (env : WinEnv) : List Action :=
  (if env.has_on_destroy then [Action.onDestroy] else [])
    ++ [Action.destroyPlotter, Action.destroyShading, Action.destroyTarget]

/-- `app::create_target` (app.cpp:292–306): trace of calls and success. -/
def create_target (env : WinEnv) (v_sync : Bool) : List Action × Bool :=
  if !env.target_ok then ([Action.createTarget v_sync], false)
  else if !env.shading_ok then
    ([Action.createTarget v_sync, Action.createShading], false)
  else if !env.plotter_ok then
    ([Action.createTarget v_sync, Action.createShading, Action.createPlotter],
      false)
  else if env.has_on_create then
    ([Action.createTarget v_sync, Action.createShading, Action.createPlotter,
        Action.assignInput, Action.onCreate], env.on_create_ok)
  else
    ([Action.createTarget v_sync, Action.createShading, Action.createPlotter,
        Action.assignInput], true)

/-- `app::create_gui` (app.cpp:261–285): trace of calls and success; the
pipeline re-registration with the render pass
(`shading.get_pass()->add(gui.get_pipeline())`, app.cpp:276) happens between
gui creation and font upload. -/
def create_gui (env : WinEnv) : List Action × Bool :=
  if !env.gui_create_ok then ([Action.guiSetup, Action.createGui], false)
  else
    ([Action.guiSetup, Action.createGui, Action.registerGuiPipeline,
        Action.uploadFonts], env.upload_fonts_ok)

/-- `app::destroy_gui` (app.cpp:287–290). -/
def destroy_gui : List Action := [Action.destroyGui, Action.destroyFonts]

/-- One tick of the run callback registered by `app::handle_window`
(app.cpp:386–431): trace of calls, bool result of the tick, new state. -/
def handle_window (env : WinEnv) (s : WinState) :
    List Action × Bool × WinState :=
  if s.close_request then ([Action.shutDown], env.shut_down_result, s)
  else if s.switch_mode_request || s.toggle_v_sync || s.reload_request then
    let tr0 := Action.waitIdle :: (destroy_target env ++ destroy_gui)
    if s.switch_mode_request && !env.switch_mode_ok then
      (tr0 ++ (if s.save_window then [Action.saveWindowState] else [])
          ++ [Action.loadWindowState, Action.switchMode], false, s)
    else
      let tr1 := tr0
        ++ (if s.switch_mode_request then
              (if s.save_window then [Action.saveWindowState] else [])
                ++ [Action.loadWindowState, Action.switchMode,
                    Action.setWindowIcon]
            else [])
      let v2 := if s.toggle_v_sync then !s.v_sync else s.v_sync
      let tr2 := tr1 ++ (if s.toggle_v_sync then [Action.invertVsync] else [])
      let s2 := { s with v_sync := v2, toggle_v_sync := false }
      let ct := create_target env v2
      if !ct.2 then (tr2 ++ ct.1, false, s2)
      else
        let cg := create_gui env
        (tr2 ++ ct.1 ++ cg.1, cg.2, s2)
  else if s.resize_request then
    ([Action.updateCamera, Action.handleResize], env.handle_resize_ok, s)
  else ([], true, s)

/-- Number of occurrences of an action in a trace. -/
def countAction (a : Action) : List Action → Nat
  | [] => 0
  | b :: l => (if b = a then 1 else 0) + countAction a l

/-- Executable subsequence check: `isSubseq l r` holds when the elements of
`l` all occur in `r`, in the order given by `l` (not necessarily
contiguously). -/
def isSubseq {α : Type} [DecidableEq α] : List α → List α → Bool
  | [], _ => true
  | _ :: _, [] => false
  | a :: l, b :: r => if a = b then isSubseq l r else isSubseq (a :: l) r

/-- The order of rebuild operations asserted by claim C1: GPU idle wait,
destroy GUI pipeline, destroy Render Block, destroy Target, (mode switch
only) persist and re-apply window state, recreate Target with the current
v-sync setting, recreate GUI pipeline and re-register it with the render
pass, recreate Render Block re-registering the command callbacks. -/
def specRebuildSeq (s : WinState) : List Action :=
  [Action.waitIdle, Action.destroyGui, Action.destroyBlock,
      Action.destroyTarget]
    ++ (if s.switch_mode_request then
          [Action.saveWindowState, Action.switchMode]
        else [])
    ++ [Action.createTarget (if s.toggle_v_sync then !s.v_sync else s.v_sync),
        Action.createGui, Action.registerGuiPipeline, Action.createBlock,
        Action.registerBlockCallbacks]

/-- Claim C1 as stated: on every tick with a pending mode-switch,
v-sync-toggle or reload request, the window-handling step performs the
operations of `specRebuildSeq` in that order. -/
def rebuildOrderClaim : Prop :=
  ∀ (env : WinEnv) (s : WinState),
    s.close_request = false
    → (s.switch_mode_request || s.toggle_v_sync || s.reload_request) = true
    → isSubseq (specRebuildSeq s) (handle_window env s).1 = true

/-! Demo values used by the concrete witnesses. -/

/-- Window-tick environment for witnesses: every external call succeeds and
both optional callbacks are installed. -/
def winEnvDemo : WinEnv :=
  { has_on_destroy := true, has_on_create := true, switch_mode_ok := true
    target_ok := true, shading_ok := true, plotter_ok := true
    on_create_ok := true, gui_create_ok := true, upload_fonts_ok := true
    shut_down_result := false, handle_resize_ok := true }

/-- Window state with only the v-sync-toggle request pending. -/
def sToggleDemo : WinState :=
  { close_request := false, switch_mode_request := false
    reload_request := false, resize_request := false
    toggle_v_sync := true, v_sync := false, save_window := true }

/-- Concrete render environment for witnesses: frame 0 available but the
Render Block `process` call fails. -/
def renderEnvDemo : RenderEnv :=
  { iconified := false, frame_index := some 0
    process_ok := fun _ => false, end_frame_ok := true }

/-- Concrete render environment for witnesses: iconified window. -/
def renderEnvIconDemo : RenderEnv :=
  { iconified := true, frame_index := none
    process_ok := fun _ => true, end_frame_ok := true }

/-- Concrete setup environment for witnesses: everything succeeds. -/
def setupEnvDemo : SetupEnv :=
  { frame_ready := true, fs_init := true, window_ok := true
    have_device := false, device_ok := true, target_ok := true }

/-- Concrete window state for witnesses (the concrete scenario of spec section 8). -/
def wDemo : WState :=
  { x := 100, y := 50, width := 800, height := 600, fullscreen := false
    floating := false, resizable := true, decorated := true
    maximized := false, monitor := 0 }

/-- Concrete default-constructed window state for witnesses. -/
def w0Demo : WState :=
  { x := 0, y := 0, width := 0, height := 0, fullscreen := false
    floating := false, resizable := false, decorated := false
    maximized := false, monitor := 0 }

/-- Concrete config state for witnesses. -/
def cstDemo : ConfigSt :=
  { paused := false, speed := 1, use_fix_delta := false, fix_delta := 20
    auto_save := true, save_interval := 300, auto_load := true
    gui_active := true, v_sync := false, physical_device := 0 }

/-- Concrete partial window-document entry for witnesses: only `x` and
`fullscreen` are present. -/
def jDemo : WEntry :=
  { x := some 7, y := none, width := none, height := none
    fullscreen := some true, floating := none, resizable := none
    decorated := none, maximized := none, monitor := none }

/-- Concrete partial config entry for witnesses: only `speed` and `v_sync`
are present. -/
def jcDemo : CEntry :=
  { paused := none, speed := some 2, auto_save := none, save_interval := none
    auto_load := none, fixed_delta := none, delta := none, gui := none
    v_sync := some true, physical_device := none }

/-! ## File-name extension matching (`file_utils.cpp:42–60`) -/

/-- C `::tolower` on the characters the default locale maps (the ASCII
upper-case letters); every other character is unchanged. -/
def asciiToLower (c : Char) : Char :=
  if 'A' ≤ c ∧ c ≤ 'Z' then Char.ofNat (c.toNat + 32) else c

/-- Lower-casing of a string (`std::transform(..., ::tolower)`). -/
def lowerStr (s : List Char) : List Char := s.map asciiToLower

/-- `string::find_last_of(c)`: index of the last occurrence of `c`, `none`
for `npos`. -/
def findLastOf : List Char → Char → Option Nat
  | [], _ => none
  | a :: l, c =>
      match findLastOf l c with
      | some i => some (i + 1)
      | none => if a = c then some 0 else none

/-- `fn.substr(fn.find_last_of('.') + 1)` (file_utils.cpp:46): `npos + 1`
wraps to `0`, so a name without a dot yields the whole name. -/
def afterLastDot (fn : List Char) : List Char :=
  match findLastOf fn '.' with
  | none => fn
  | some i => fn.drop (i + 1)

/-- `lava::extension(name file_name, name extension)`
(file_utils.cpp:42–52). -/
def extension (file_name ext : List Char) : Bool :=
  lowerStr (afterLastDot file_name) == lowerStr ext

/-- `lava::extension(name filename, names extensions)`
(file_utils.cpp:54–60): true when some listed extension matches. -/
def extensionList (filename : List Char) (extensions : List (List Char)) :
    Bool :=
  extensions.any (fun ex => extension filename ex)

/-- The spec reading of the compared suffix: the substring of the file name
after its last dot, or the whole name when no dot occurs. -/
def SpecSuffix (fn suff : List Char) : Prop :=
  (('.' : Char) ∉ fn ∧ suff = fn)
    ∨ ∃ pre, fn = pre ++ ('.' : Char) :: suff ∧ ('.' : Char) ∉ suff

/-! ## Pipeline object model (`block/pipeline.hpp`) -/

/-- The `pipeline` flag state, from the in-class member initializers
(pipeline.hpp:111, 117–118): `_pipeline = nullptr` (modelled by `ready`),
`active = true`, `auto_bind = false`. -/
structure Pipeline where
  ready : Bool
  active : Bool
  auto_bind : Bool
deriving DecidableEq

/-- A freshly constructed `pipeline`. -/
def Pipeline.init : Pipeline :=
  { ready := false, active := true, auto_bind := false }

/-- `pipeline::is_ready()` (pipeline.hpp:74): `_pipeline != nullptr`. -/
def Pipeline.is_ready (p : Pipeline) : Bool := p.ready

/-- `pipeline::is_active()` (pipeline.hpp:67). -/
def Pipeline.is_active (p : Pipeline) : Bool := p.active

/-- `pipeline::is_auto_bind()` (pipeline.hpp:72). -/
def Pipeline.is_auto_bind (p : Pipeline) : Bool := p.auto_bind

/-- `pipeline::toggle()` (pipeline.hpp:69): `active = !active`. -/
def Pipeline.toggle (p : Pipeline) : Pipeline := { p with active := !p.active }

/-- `graphics_pipeline::size_type` (pipeline.hpp:127–132). -/
inductive SizeType
  | input
  | absolute
  | relative
deriving DecidableEq

/-- The `graphics_pipeline` additional flag state, from the in-class member
initializers (pipeline.hpp:229–236): `_size_type = size_type::input`,
`auto_size = true`, `auto_line_width = false`, `line_width = 1.f` (the value
1 is exactly representable, so it is modelled as the rational 1). -/
structure GraphicsPipeline where
  base : Pipeline
  size_type : SizeType
  auto_size : Bool
  auto_line_width : Bool
  line_width : ℚ
deriving DecidableEq

/-- A freshly constructed `graphics_pipeline`. -/
def GraphicsPipeline.init : GraphicsPipeline :=
  { base := Pipeline.init, size_type := SizeType.input, auto_size := true
    auto_line_width := false, line_width := 1 }

theorem find_mergePatchKey_self (j : Doc) (k : String) (e : WEntry) :
    (j.mergePatchKey k e).find k =
      some (match j.find k with
            | some old => WEntry.mergePatch old e
            | none => e) := by
  induction j with
  | nil => simp [Doc.mergePatchKey, Doc.find]
  | cons p rest ih =>
      obtain ⟨k0, e0⟩ := p
      by_cases h : k0 = k <;> simp [Doc.mergePatchKey, Doc.find, h, ih]

theorem find_mergePatchKey_other (j : Doc) (k k2 : String) (e : WEntry)
    (h : k2 ≠ k) : (j.mergePatchKey k e).find k2 = j.find k2 := by
  induction j with
  | nil => simp [Doc.mergePatchKey, Doc.find, Ne.symm h]
  | cons p rest ih =>
      obtain ⟨k0, e0⟩ := p
      by_cases h0 : k0 = k
      · subst h0
        simp [Doc.mergePatchKey, Doc.find, Ne.symm h]
      · simp [Doc.mergePatchKey, Doc.find, h0, ih]

theorem mergePatch_total (old : WEntry) (w : WState) :
    WEntry.mergePatch old (to_json w) = to_json w := by
  simp [WEntry.mergePatch, to_json, mergeField]

theorem from_json_to_json (w0 w : WState) : from_json (to_json w) w0 = w := by
  simp [from_json, to_json]

/-- **C2.** Window-state round-trip: saving any state under a save-name and
loading by that same save-name yields exactly that state (all ten fields);
and loading any save-name absent from the persisted document returns the
empty optional, not a default-filled record. -/
theorem window_state_roundtrip (w0 state : WState) (index : String)
    (file : Option Doc) (doc : Doc) (absent : String)
    (habs : doc.find absent = none) :
    load_window_state w0 (some (save_window_file file index state)) index
        = some state
      ∧ load_window_state w0 (some doc) absent = none := by
  constructor
  · cases file with
    | none =>
        simp [load_window_state, load_window_file, save_window_file, Doc.find,
          from_json_to_json]
    | some j =>
        simp [load_window_state, load_window_file, save_window_file,
          find_mergePatchKey_self]
        cases h : j.find index <;>
          simp [mergePatch_total, from_json_to_json]
  · simp [load_window_state, load_window_file, habs]

/-- Witness for `window_state_roundtrip` at the concrete scenario given in the
spec. -/
theorem window_state_roundtrip_witness :
    Doc.find [("B", to_json w0Demo)] "secondary" = none
      ∧ (load_window_state w0Demo
            (some (save_window_file (some [("B", to_json w0Demo)]) "main" wDemo))
            "main" = some wDemo
          ∧ load_window_state w0Demo (some [("B", to_json w0Demo)]) "secondary"
              = none) :=
  ⟨by decide,
    window_state_roundtrip w0Demo wDemo "main" (some [("B", to_json w0Demo)])
      [("B", to_json w0Demo)] "secondary" (by decide)⟩

/-- **C3.** Saving a window state under save-name `A` merges into the
existing document: the entry of every other save-name `B` is unchanged. -/
theorem save_preserves_other_entries (j : Doc) (a b : String) (st : WState)
    (hab : b ≠ a) :
    (save_window_file (some j) a st).find b = j.find b := by
  simpa [save_window_file] using find_mergePatchKey_other j a b (to_json st) hab

/-- Witness for `save_preserves_other_entries`: a document holding "B",
saved under "A", still answers the original entry for "B". -/
theorem save_preserves_other_entries_witness :
    (("B" : String) ≠ "A")
      ∧ (save_window_file (some [("B", to_json wDemo)]) "A" w0Demo).find "B"
          = Doc.find [("B", to_json wDemo)] "B" :=
  ⟨by decide,
    save_preserves_other_entries [("B", to_json wDemo)] "A" "B" w0Demo (by decide)⟩

/-- **C5.** Partial-document-tolerant load, for all ten fields of the
window-state record (`from_json`) and all ten fields of the run-time/config
record (`on_load`): a field present in the document overwrites the in-memory
value, a field missing from the document leaves the in-memory value
unchanged. -/
theorem partial_document_tolerant_load (j : WEntry) (w : WState) (jc : CEntry)
    (st : ConfigSt) :
    ((∀ v, j.x = some v → (from_json j w).x = v)
        ∧ (j.x = none → (from_json j w).x = w.x))
      ∧ ((∀ v, j.y = some v → (from_json j w).y = v)
        ∧ (j.y = none → (from_json j w).y = w.y))
      ∧ ((∀ v, j.width = some v → (from_json j w).width = v)
        ∧ (j.width = none → (from_json j w).width = w.width))
      ∧ ((∀ v, j.height = some v → (from_json j w).height = v)
        ∧ (j.height = none → (from_json j w).height = w.height))
      ∧ ((∀ v, j.fullscreen = some v → (from_json j w).fullscreen = v)
        ∧ (j.fullscreen = none → (from_json j w).fullscreen = w.fullscreen))
      ∧ ((∀ v, j.floating = some v → (from_json j w).floating = v)
        ∧ (j.floating = none → (from_json j w).floating = w.floating))
      ∧ ((∀ v, j.resizable = some v → (from_json j w).resizable = v)
        ∧ (j.resizable = none → (from_json j w).resizable = w.resizable))
      ∧ ((∀ v, j.decorated = some v → (from_json j w).decorated = v)
        ∧ (j.decorated = none → (from_json j w).decorated = w.decorated))
      ∧ ((∀ v, j.maximized = some v → (from_json j w).maximized = v)
        ∧ (j.maximized = none → (from_json j w).maximized = w.maximized))
      ∧ ((∀ v, j.monitor = some v → (from_json j w).monitor = v)
        ∧ (j.monitor = none → (from_json j w).monitor = w.monitor))
      ∧ ((∀ v, jc.paused = some v → (on_load jc st).paused = v)
        ∧ (jc.paused = none → (on_load jc st).paused = st.paused))
      ∧ ((∀ v, jc.speed = some v → (on_load jc st).speed = v)
        ∧ (jc.speed = none → (on_load jc st).speed = st.speed))
      ∧ ((∀ v, jc.auto_save = some v → (on_load jc st).auto_save = v)
        ∧ (jc.auto_save = none → (on_load jc st).auto_save = st.auto_save))
      ∧ ((∀ v, jc.save_interval = some v → (on_load jc st).save_interval = v)
        ∧ (jc.save_interval = none →
            (on_load jc st).save_interval = st.save_interval))
      ∧ ((∀ v, jc.auto_load = some v → (on_load jc st).auto_load = v)
        ∧ (jc.auto_load = none → (on_load jc st).auto_load = st.auto_load))
      ∧ ((∀ v, jc.fixed_delta = some v → (on_load jc st).use_fix_delta = v)
        ∧ (jc.fixed_delta = none →
            (on_load jc st).use_fix_delta = st.use_fix_delta))
      ∧ ((∀ v, jc.delta = some v → (on_load jc st).fix_delta = v)
        ∧ (jc.delta = none → (on_load jc st).fix_delta = st.fix_delta))
      ∧ ((∀ v, jc.gui = some v → (on_load jc st).gui_active = v)
        ∧ (jc.gui = none → (on_load jc st).gui_active = st.gui_active))
      ∧ ((∀ v, jc.v_sync = some v → (on_load jc st).v_sync = v)
        ∧ (jc.v_sync = none → (on_load jc st).v_sync = st.v_sync))
      ∧ ((∀ v, jc.physical_device = some v →
            (on_load jc st).physical_device = v)
        ∧ (jc.physical_device = none →
            (on_load jc st).physical_device = st.physical_device)) := by
  repeat' constructor
  all_goals
    first
      | (intro v h; simp [from_json, on_load, h])
      | (intro h; simp [from_json, on_load, h])

/-- Witness for `partial_document_tolerant_load`: a document carrying only
`x`/`fullscreen` (window) and `speed`/`v_sync` (config) overwrites those and
keeps everything else. -/
theorem partial_document_tolerant_load_witness :
    (jDemo.x = some 7 ∧ jDemo.y = none
        ∧ jcDemo.speed = some 2 ∧ jcDemo.paused = none)
      ∧ ((from_json jDemo wDemo).x = 7
        ∧ (from_json jDemo wDemo).y = wDemo.y
        ∧ (on_load jcDemo cstDemo).speed = 2
        ∧ (on_load jcDemo cstDemo).paused = cstDemo.paused) :=
  ⟨⟨rfl, rfl, rfl, rfl⟩,
    ⟨(partial_document_tolerant_load jDemo wDemo jcDemo cstDemo).1.1 7 rfl,
      (partial_document_tolerant_load jDemo wDemo jcDemo cstDemo).2.1.2 rfl,
      ((partial_document_tolerant_load jDemo wDemo jcDemo cstDemo).2.2.2.2.2.2.2.2.2.2.2.1 : _).1 2 rfl,
      ((partial_document_tolerant_load jDemo wDemo jcDemo cstDemo).2.2.2.2.2.2.2.2.2.2.1 : _).2 rfl⟩⟩

/-- **C4.** Persistence errors are never fatal: loading the window state from
a missing/unreadable window file returns the empty optional; saving to an
unwritable window file leaves the file untouched and reports the failed write
(the function returns normally); loading the config from a
missing/unreadable config file keeps every prior/default value. -/
theorem persistence_errors_not_fatal (w0 st : WState) (nm : String)
    (fs : WindowFS) (cst : ConfigSt) (hw : fs.writable = false) :
    load_window_state w0 none nm = none
      ∧ (save_window_file_fs fs nm st).1 = fs
      ∧ (save_window_file_fs fs nm st).2 = false
      ∧ config_file_load none cst = cst := by
  refine ⟨rfl, ?_, ?_, rfl⟩ <;> simp [save_window_file_fs, hw]

/-- Witness for `persistence_errors_not_fatal` on a concrete unwritable
file system. -/
theorem persistence_errors_not_fatal_witness :
    (WindowFS.mk none false).writable = false
      ∧ (load_window_state w0Demo none "main" = none
        ∧ (save_window_file_fs (WindowFS.mk none false) "main" wDemo).1
            = WindowFS.mk none false
        ∧ (save_window_file_fs (WindowFS.mk none false) "main" wDemo).2 = false
        ∧ config_file_load none cstDemo = cstDemo) :=
  ⟨rfl, persistence_errors_not_fatal w0Demo wDemo "main" (WindowFS.mk none false)
    cstDemo rfl⟩

/-- **C6.** The render step treats transient unavailability as success and
device errors as fatal: an iconified window sleeps one ms and returns true;
an unavailable frame index returns true without advancing the frame counter;
and the step returns false exactly when a frame index was acquired and the
Render Block `process` call or the frame-end/present step fails. -/
theorem render_error_policy (env : RenderEnv) (n : Nat) :
    (env.iconified = true →
        render env n = ([RenderAction.sleepOneMs], true, n))
      ∧ (env.iconified = false → env.frame_index = none →
          (render env n).2.1 = true ∧ (render env n).2.2 = n)
      ∧ ((render env n).2.1 = false ↔
          env.iconified = false ∧ ∃ i, env.frame_index = some i ∧
            ¬(env.process_ok i = true ∧ env.end_frame_ok = true)) := by
  obtain ⟨ic, fi, pok, eok⟩ := env
  refine ⟨fun h => by simp at h; simp [render, h],
    fun h1 h2 => by simp at h1 h2; simp [render, h1, h2], ?_⟩
  cases ic with
  | true => simp [render]
  | false =>
      cases fi with
      | none => simp [render]
      | some i => cases hp : pok i <;> cases eok <;> simp [render, hp]

/-- Witness for `render_error_policy`: an iconified tick succeeds without
rendering, and a tick whose `process` fails stops the run loop. -/
theorem render_error_policy_witness :
    (renderEnvIconDemo.iconified = true
        ∧ render renderEnvIconDemo 5 = ([RenderAction.sleepOneMs], true, 5))
      ∧ (render renderEnvDemo 5).2.1 = false :=
  ⟨⟨rfl, (render_error_policy renderEnvIconDemo 5).1 rfl⟩,
    (render_error_policy renderEnvDemo 5).2.2.mpr ⟨rfl, 0, rfl, by simp [renderEnvDemo]⟩⟩

/-- **C7.** Command-line overrides for v-sync and physical-device index are
applied right after the config-file load and before window/device/target
creation; when the flag is supplied, its value wins over the persisted config
value in every subsequent device and target creation of setup. -/
theorem cmd_line_overrides (env : SetupEnv) (persisted : Option CEntry)
    (cl_vs : Option Bool) (cl_pd : Option Int) (st0 : ConfigSt) (b : Bool)
    (n : Int) (hvs : cl_vs = some b) (hpd : cl_pd = some n) :
    ((setup env persisted cl_vs cl_pd st0).1 = []
        ∨ ((setup env persisted cl_vs cl_pd st0).1.take 2
              = [SetupEvent.configLoad, SetupEvent.cmdLineOverride]
          ∧ SetupEvent.configLoad ∉ (setup env persisted cl_vs cl_pd st0).1.drop 2
          ∧ SetupEvent.cmdLineOverride
              ∉ (setup env persisted cl_vs cl_pd st0).1.drop 2))
      ∧ (∀ m, SetupEvent.deviceCreate m ∈ (setup env persisted cl_vs cl_pd st0).1
          → m = n)
      ∧ (∀ c, SetupEvent.targetCreate c ∈ (setup env persisted cl_vs cl_pd st0).1
          → c = b)
      ∧ (env.frame_ready = true → env.fs_init = true →
          (setup env persisted cl_vs cl_pd st0).2.2.v_sync = b
            ∧ (setup env persisted cl_vs cl_pd st0).2.2.physical_device = n) := by
  subst hvs hpd
  obtain ⟨fr, fsi, wok, hd, dok, tok⟩ := env
  cases fr <;> cases fsi <;> cases wok <;> cases hd <;> cases dok <;>
    simp [setup]

/-- Witness for `cmd_line_overrides`: the persisted config says
`v_sync = false`, `physical_device = 0`; the command line supplies `true` and
`2`; the config used for device/target creation carries the command-line
values. -/
theorem cmd_line_overrides_witness :
    ((some true : Option Bool) = some true
        ∧ (some (2 : Int) : Option Int) = some 2
        ∧ setupEnvDemo.frame_ready = true ∧ setupEnvDemo.fs_init = true)
      ∧ ((setup setupEnvDemo (some (on_save cstDemo)) (some true) (some 2)
            cstDemo).2.2.v_sync = true
        ∧ (setup setupEnvDemo (some (on_save cstDemo)) (some true) (some 2)
            cstDemo).2.2.physical_device = 2) :=
  ⟨⟨rfl, rfl, rfl, rfl⟩,
    (cmd_line_overrides setupEnvDemo (some (on_save cstDemo)) (some true)
      (some 2) cstDemo true 2 rfl rfl).2.2.2 rfl rfl⟩

/-- **C1 (counterexample).** At a tick with only the v-sync-toggle request
pending and every external call succeeding, the window-handling step does not
perform the sequence claimed: it destroys the Target before the GUI and never
destroys or recreates the Render Block. -/
theorem rebuild_order_claim_false : ¬ rebuildOrderClaim := by
  intro h
  exact absurd (h winEnvDemo sToggleDemo rfl rfl) (by decide)

/-- **C1 (amended).** On any tick with a pending mode-switch, v-sync-toggle
or reload request whose external rebuild calls succeed, the window-handling
step performs, in this order: wait for GPU idle, destroy the Target, destroy
the dependent GUI pipeline, (if mode switch) persist the window state (when
window saving is enabled) and re-apply it, recreate the Target with the
current v-sync setting (after any v-sync inversion), and recreate the GUI
pipeline re-registering it with the render pass; the Render Block is neither
destroyed nor recreated by this step. -/
theorem rebuild_order (env : WinEnv) (s : WinState)
    (hc : s.close_request = false)
    (hp : (s.switch_mode_request || s.toggle_v_sync || s.reload_request) = true)
    (hsm : env.switch_mode_ok = true) (hta : env.target_ok = true)
    (hsh : env.shading_ok = true) (hpl : env.plotter_ok = true)
    (hoo : env.on_create_ok = true) (hgc : env.gui_create_ok = true) :
    isSubseq
        ([Action.waitIdle, Action.destroyTarget, Action.destroyGui]
          ++ (if s.switch_mode_request then
                (if s.save_window then [Action.saveWindowState] else [])
                  ++ [Action.switchMode]
              else [])
          ++ [Action.createTarget
                (if s.toggle_v_sync then !s.v_sync else s.v_sync),
              Action.createGui, Action.registerGuiPipeline])
        (handle_window env s).1 = true
      ∧ Action.destroyBlock ∉ (handle_window env s).1
      ∧ Action.createBlock ∉ (handle_window env s).1 := by
  obtain ⟨cr, sm, rl, rz, tv, vs, sw⟩ := s
  obtain ⟨hod, hoc, smo, tao, sha, plo, oco, gco, ufo, sdr, hro⟩ := env
  have hc2 : cr = false := hc
  have hsm2 : smo = true := hsm
  have hta2 : tao = true := hta
  have hsh2 : sha = true := hsh
  have hpl2 : plo = true := hpl
  have hoo2 : oco = true := hoo
  have hgc2 : gco = true := hgc
  subst hc2 hsm2 hta2 hsh2 hpl2 hoo2 hgc2
  have hp2 : (sm || tv || rl) = true := hp
  simp only [handle_window, destroy_target, destroy_gui, create_target,
    create_gui, hp2]
  simp only [Bool.not_true, Bool.and_false, Bool.false_and, Bool.and_true,
    if_true, if_false, ite_self, Bool.not_false]
  simp [hp2]
  split_ifs <;> cases vs <;> first
    | contradiction
    | decide
    | simp [isSubseq]

/-- Witness for `rebuild_order` at the concrete v-sync-toggle tick. -/
theorem rebuild_order_witness :
    (sToggleDemo.close_request = false
        ∧ (sToggleDemo.switch_mode_request || sToggleDemo.toggle_v_sync
            || sToggleDemo.reload_request) = true
        ∧ winEnvDemo.switch_mode_ok = true ∧ winEnvDemo.target_ok = true
        ∧ winEnvDemo.shading_ok = true ∧ winEnvDemo.plotter_ok = true
        ∧ winEnvDemo.on_create_ok = true ∧ winEnvDemo.gui_create_ok = true)
      ∧ (isSubseq
            ([Action.waitIdle, Action.destroyTarget, Action.destroyGui]
              ++ (if sToggleDemo.switch_mode_request then
                    (if sToggleDemo.save_window then [Action.saveWindowState]
                      else [])
                      ++ [Action.switchMode]
                  else [])
              ++ [Action.createTarget
                    (if sToggleDemo.toggle_v_sync then !sToggleDemo.v_sync
                      else sToggleDemo.v_sync),
                  Action.createGui, Action.registerGuiPipeline])
            (handle_window winEnvDemo sToggleDemo).1 = true
        ∧ Action.destroyBlock ∉ (handle_window winEnvDemo sToggleDemo).1
        ∧ Action.createBlock ∉ (handle_window winEnvDemo sToggleDemo).1) :=
  ⟨⟨rfl, rfl, rfl, rfl, rfl, rfl, rfl, rfl⟩,
    rebuild_order winEnvDemo sToggleDemo rfl rfl rfl rfl rfl rfl rfl rfl⟩

theorem countAction_append (a : Action) (l1 l2 : List Action) :
    countAction a (l1 ++ l2) = countAction a l1 + countAction a l2 := by
  induction l1 with
  | nil => simp [countAction]
  | cons b l ih => simp [countAction, ih]; omega

theorem countAction_invert_destroy_target (env : WinEnv) :
    countAction Action.invertVsync (destroy_target env) = 0 := by
  by_cases h : env.has_on_destroy <;>
    simp [destroy_target, h, countAction_append, countAction]

theorem countAction_invert_create_target (env : WinEnv) (v : Bool) :
    countAction Action.invertVsync (create_target env v).1 = 0 := by
  unfold create_target
  split_ifs <;> simp [countAction]

theorem countAction_invert_create_gui (env : WinEnv) :
    countAction Action.invertVsync (create_gui env).1 = 0 := by
  unfold create_gui
  split_ifs <;> simp [countAction]

/-- Closed form of `handle_window`: the same computation with the trace, the
result and the new state given componentwise. -/
theorem handle_window_eq (env : WinEnv) (s : WinState) :
    handle_window env s =
      (if s.close_request then ([Action.shutDown], env.shut_down_result, s)
       else if s.switch_mode_request || s.toggle_v_sync || s.reload_request then
         (if s.switch_mode_request && !env.switch_mode_ok then
            (Action.waitIdle :: (destroy_target env ++ destroy_gui)
                ++ (if s.save_window then [Action.saveWindowState] else [])
                ++ [Action.loadWindowState, Action.switchMode],
              false, s)
          else
            (Action.waitIdle :: (destroy_target env ++ destroy_gui)
                ++ (if s.switch_mode_request then
                      (if s.save_window then [Action.saveWindowState] else [])
                        ++ [Action.loadWindowState, Action.switchMode,
                            Action.setWindowIcon]
                    else [])
                ++ (if s.toggle_v_sync then [Action.invertVsync] else [])
                ++ (create_target env
                      (if s.toggle_v_sync then !s.v_sync else s.v_sync)).1
                ++ (if (create_target env
                          (if s.toggle_v_sync then !s.v_sync else s.v_sync)).2
                    then (create_gui env).1 else []),
              (if (create_target env
                      (if s.toggle_v_sync then !s.v_sync else s.v_sync)).2
               then (create_gui env).2 else false),
              { s with
                  v_sync := if s.toggle_v_sync then !s.v_sync else s.v_sync
                  toggle_v_sync := false }))
       else if s.resize_request then
         ([Action.updateCamera, Action.handleResize], env.handle_resize_ok, s)
       else ([], true, s)) := by
  unfold handle_window
  split_ifs with h1 h2 h3 h4 <;>
    simp_all [List.append_assoc]

/-- A tick that starts with the v-sync toggle flag clear never inverts the
v-sync setting and leaves the flag clear. -/
theorem tick_toggle_clear (env : WinEnv) (s : WinState)
    (h : s.toggle_v_sync = false) :
    countAction Action.invertVsync (handle_window env s).1 = 0
      ∧ (handle_window env s).2.2.v_sync = s.v_sync
      ∧ (handle_window env s).2.2.toggle_v_sync = false := by
  rw [handle_window_eq]
  by_cases h1 : s.close_request
  · simp [h1, countAction, h]
  · by_cases h6 : s.switch_mode_request <;>
      by_cases hrl : s.reload_request <;>
        by_cases h3 : env.switch_mode_ok <;>
          by_cases h4 : s.save_window <;>
            by_cases h5 : s.resize_request <;>
              simp [h1, h, h6, hrl, h3, h4, h5, countAction_append, countAction,
                countAction_invert_destroy_target,
                countAction_invert_create_target,
                countAction_invert_create_gui, destroy_gui,
                apply_ite (countAction Action.invertVsync)]

/-- A tick that starts with the v-sync toggle flag set, no close request and
a succeeding mode switch (when requested) inverts the v-sync setting exactly
once and clears the flag. -/
theorem tick_toggle_set (env : WinEnv) (s : WinState)
    (hc : s.close_request = false) (ht : s.toggle_v_sync = true)
    (hsm : s.switch_mode_request = true → env.switch_mode_ok = true) :
    countAction Action.invertVsync (handle_window env s).1 = 1
      ∧ (handle_window env s).2.2.toggle_v_sync = false
      ∧ (handle_window env s).2.2.v_sync = !s.v_sync := by
  rw [handle_window_eq]
  by_cases h6 : s.switch_mode_request
  · have hok : env.switch_mode_ok = true := hsm h6
    by_cases h4 : s.save_window <;>
      simp [hc, ht, h6, hok, h4, countAction_append, countAction,
        countAction_invert_destroy_target, countAction_invert_create_target,
        countAction_invert_create_gui, destroy_gui,
        apply_ite (countAction Action.invertVsync)]
  · by_cases h4 : s.save_window <;>
      simp [hc, ht, h6, h4, countAction_append, countAction,
        countAction_invert_destroy_target, countAction_invert_create_target,
        countAction_invert_create_gui, destroy_gui,
        apply_ite (countAction Action.invertVsync)]

/-- **C8.** The v-sync toggle request flag is edge-triggered: a tick that
starts with the flag set (and completes a requested mode switch) inverts
`config.v_sync` exactly once and clears the flag by that consumption, and
any subsequent tick (the flag now clear) performs no further inversion — so
a single set of the flag cannot cause two inversions. -/
theorem v_sync_toggle_edge_triggered (env env2 : WinEnv) (s : WinState)
    (hc : s.close_request = false) (ht : s.toggle_v_sync = true)
    (hsm : s.switch_mode_request = true → env.switch_mode_ok = true) :
    (countAction Action.invertVsync (handle_window env s).1 = 1
      ∧ (handle_window env s).2.2.toggle_v_sync = false
      ∧ (handle_window env s).2.2.v_sync = !s.v_sync)
    ∧ (countAction Action.invertVsync
          (handle_window env2 (handle_window env s).2.2).1 = 0
      ∧ (handle_window env2 (handle_window env s).2.2).2.2.v_sync = !s.v_sync
      ∧ (handle_window env2 (handle_window env s).2.2).2.2.toggle_v_sync
          = false) := by
  obtain ⟨c1, c2, c3⟩ := tick_toggle_set env s hc ht hsm
  obtain ⟨d1, d2, d3⟩ := tick_toggle_clear env2 (handle_window env s).2.2 c2
  exact ⟨⟨c1, c2, c3⟩, d1, by rw [d2, c3], d3⟩

/-- Witness for `v_sync_toggle_edge_triggered` at the concrete
v-sync-toggle tick. -/
theorem v_sync_toggle_edge_triggered_witness :
    (sToggleDemo.close_request = false ∧ sToggleDemo.toggle_v_sync = true)
      ∧ (countAction Action.invertVsync
            (handle_window winEnvDemo sToggleDemo).1 = 1
        ∧ (handle_window winEnvDemo sToggleDemo).2.2.toggle_v_sync = false
        ∧ (handle_window winEnvDemo
              (handle_window winEnvDemo sToggleDemo).2.2).2.2.v_sync
            = !sToggleDemo.v_sync) :=
  ⟨⟨rfl, rfl⟩,
    (v_sync_toggle_edge_triggered winEnvDemo winEnvDemo sToggleDemo rfl rfl
        (by intro h; exact absurd h (by decide))).1.1,
    (v_sync_toggle_edge_triggered winEnvDemo winEnvDemo sToggleDemo rfl rfl
        (by intro h; exact absurd h (by decide))).1.2.1,
    (v_sync_toggle_edge_triggered winEnvDemo winEnvDemo sToggleDemo rfl rfl
        (by intro h; exact absurd h (by decide))).2.2.1⟩

theorem findLastOf_none_of_not_mem {l : List Char} {c : Char} (h : c ∉ l) :
    findLastOf l c = none := by
  induction l with
  | nil => rfl
  | cons a l ih =>
      have h1 : ¬a = c := fun e => h (by simp [e])
      have h2 : c ∉ l := fun m => h (List.mem_cons_of_mem a m)
      simp [findLastOf, ih h2, h1]

theorem not_mem_of_findLastOf_none {l : List Char} {c : Char}
    (h : findLastOf l c = none) : c ∉ l := by
  induction l with
  | nil => simp
  | cons a l ih =>
      intro hm
      rw [findLastOf] at h
      cases hfl : findLastOf l c with
      | some i => rw [hfl] at h; cases h
      | none =>
          rw [hfl] at h
          by_cases hac : a = c
          · rw [if_pos hac] at h; cases h
          · rcases List.mem_cons.mp hm with he | hml
            · exact hac he.symm
            · exact ih hfl hml

theorem findLastOf_decomp {l : List Char} {c : Char} {i : Nat}
    (h : findLastOf l c = some i) :
    l = l.take i ++ c :: l.drop (i + 1) ∧ c ∉ l.drop (i + 1) := by
  induction l generalizing i with
  | nil => cases h
  | cons a l ih =>
      rw [findLastOf] at h
      cases hfl : findLastOf l c with
      | some j =>
          rw [hfl] at h
          obtain rfl : j + 1 = i := Option.some.inj h
          obtain ⟨hd, hm⟩ := ih hfl
          constructor
          · rw [List.take_succ_cons, List.drop_succ_cons, List.cons_append]
            exact congrArg (a :: ·) hd
          · rw [List.drop_succ_cons]
            exact hm
      | none =>
          rw [hfl] at h
          by_cases hac : a = c
          · rw [if_pos hac] at h
            obtain rfl : 0 = i := Option.some.inj h
            subst hac
            exact ⟨rfl, not_mem_of_findLastOf_none hfl⟩
          · rw [if_neg hac] at h
            cases h

theorem findLastOf_append_of_not_mem (pre : List Char) {suff : List Char}
    {c : Char} (h : c ∉ suff) :
    findLastOf (pre ++ c :: suff) c = some pre.length := by
  induction pre with
  | nil => simp [findLastOf, findLastOf_none_of_not_mem h]
  | cons a pre ih => simp [findLastOf, ih]

theorem drop_length_succ_append (pre : List Char) (x : Char)
    (suff : List Char) : (pre ++ x :: suff).drop (pre.length + 1) = suff := by
  induction pre with
  | nil => simp
  | cons a pre _ih => simp

theorem afterLastDot_is_SpecSuffix (fn : List Char) :
    SpecSuffix fn (afterLastDot fn) := by
  unfold afterLastDot
  cases hfl : findLastOf fn '.' with
  | none => exact Or.inl ⟨not_mem_of_findLastOf_none hfl, rfl⟩
  | some i =>
      obtain ⟨hd, hm⟩ := findLastOf_decomp hfl
      exact Or.inr ⟨fn.take i, hd, hm⟩

theorem SpecSuffix_unique {fn suff : List Char} (h : SpecSuffix fn suff) :
    afterLastDot fn = suff := by
  rcases h with ⟨hnm, rfl⟩ | ⟨pre, rfl, hnm⟩
  · simp [afterLastDot, findLastOf_none_of_not_mem hnm]
  · rw [afterLastDot, findLastOf_append_of_not_mem pre hnm]
    exact drop_length_succ_append pre _ suff

/-- **C9.** `extension(file_name, extension)` returns true iff the substring
of the file name after its last dot (the whole name when no dot occurs)
equals the given extension case-insensitively; and the list overload returns
true iff some listed extension matches. -/
theorem extension_spec (fn ext : List Char) (exts : List (List Char)) :
    (extension fn ext = true ↔
        ∃ suff, SpecSuffix fn suff ∧ lowerStr suff = lowerStr ext)
      ∧ (extensionList fn exts = true ↔
        ∃ e ∈ exts, extension fn e = true) := by
  constructor
  · constructor
    · intro h
      exact ⟨afterLastDot fn, afterLastDot_is_SpecSuffix fn,
        by simpa [extension] using h⟩
    · rintro ⟨suff, hs, hl⟩
      simp [extension, SpecSuffix_unique hs, hl]
  · simp [extensionList, List.any_eq_true]

/-- Witness for `extension_spec`: "shader.SPV" matches extension "spv"
case-insensitively, also through the list overload. -/
theorem extension_spec_witness :
    extension "shader.SPV".toList "spv".toList = true
      ∧ extensionList "shader.SPV".toList ["png".toList, "spv".toList]
          = true :=
  ⟨(extension_spec "shader.SPV".toList "spv".toList []).1.mpr
      ⟨"SPV".toList,
        Or.inr ⟨"shader".toList, by decide, by decide⟩, by decide⟩,
    (extension_spec "shader.SPV".toList "spv".toList
        ["png".toList, "spv".toList]).2.mpr
      ⟨"spv".toList, by decide, by decide⟩⟩

/-- **C10.** A freshly constructed pipeline is not ready, is active, is not
auto-bound; a freshly constructed graphics pipeline has size policy `input`,
`auto_size` true, `auto_line_width` false, line width 1; and `toggle()`
applied twice restores the active flag. -/
theorem pipeline_initial_state :
    Pipeline.init.is_ready = false
      ∧ Pipeline.init.is_active = true
      ∧ Pipeline.init.is_auto_bind = false
      ∧ GraphicsPipeline.init.size_type = SizeType.input
      ∧ GraphicsPipeline.init.auto_size = true
      ∧ GraphicsPipeline.init.auto_line_width = false
      ∧ GraphicsPipeline.init.line_width = 1
      ∧ ∀ p : Pipeline, p.toggle.toggle.is_active = p.is_active := by
  refine ⟨rfl, rfl, rfl, rfl, rfl, rfl, rfl, fun p => ?_⟩
  simp [Pipeline.toggle, Pipeline.is_active]

end Lava
